import Mathlib

/-!
Shallow embedding of the outbox synchronization engine of
`src-tauri/src/sync/mod.rs`: the outbox queue model, the Session Runner
(`process_sync_queue`), the Retention Sweeper (`cleanup_old_sync_data`),
the Remote Config store (`save_sync_config`, `load_sync_config`),
manual retry (`retry_failed_items`), full resync (`trigger_full_sync`)
and credential rotation (`migrate_to_new_database`).

Timestamps (`created_at`, `synced_at`, `started_at`, `finished_at`) are
modelled as logical clocks (`Nat`); SQL rows become Lean structures and
tables become lists of rows.  HTTP calls are modelled by an oracle
`SyncQueueItem → HttpResult`; the Argon2 password check is modelled by
an oracle `String → String → Bool` (password, stored hash).
-/

namespace SineShin

/-- A row of the `sync_queue` table (struct `SyncQueueItem`). -/
structure SyncQueueItem where
  id : Nat
  table_name : String
  operation : String
  record_id : Nat
  payload : String
  status : String
  retry_count : Nat
  error_message : Option String
  created_at : Nat
  synced_at : Option Nat
deriving Repr, DecidableEq

/-- A row of the `sync_sessions` table (struct `SyncSession`). -/
structure SyncSession where
  id : Nat
  started_at : Nat
  finished_at : Option Nat
  total_queued : Nat
  total_synced : Nat
  total_failed : Nat
  status : String
deriving Repr, DecidableEq

/-- A row of the `sync_config` table (struct `SyncConfig` plus the
`is_active` column used by the SQL but not exposed in the Rust struct). -/
structure SyncConfigRow where
  id : Nat
  supabase_url : String
  supabase_anon_key : String
  supabase_service_key : String
  is_active : Bool
  sync_enabled : Bool
  sync_interval : Nat
deriving Repr, DecidableEq

/-- A row of one of the synced business tables: its primary key, its
business columns (column name, value) and the local `synced` flag. -/
structure TableRow where
  id : Nat
  fields : List (String × String)
  synced : Bool
deriving Repr, DecidableEq

/-- The local database state touched by the sync subsystem. -/
structure Db where
  sync_queue : List SyncQueueItem
  sync_sessions : List SyncSession
  sync_config : List SyncConfigRow
  tables : List (String × List TableRow)
  master_password_hash : Option String
deriving Repr, DecidableEq

/-- Outcome of one outbound HTTP call: `ok code body` for a response,
`err msg` for a transport error (`reqwest::Error`). -/
inductive HttpResult where
  | ok (code : Nat) (body : String)
  | err (msg : String)
deriving Repr, DecidableEq

-- ── Insertion sorts used to embed `ORDER BY` ──────────────────────

/-- Insert `x` into a list ascending in `key`. -/
def insertAsc (key : α → Nat) (x : α) : List α → List α
  | [] => [x]
  | y :: ys => if key x ≤ key y then x :: y :: ys else y :: insertAsc key x ys

/-- Sort ascending in `key` (embeds `ORDER BY key ASC`). -/
def sortAsc (key : α → Nat) : List α → List α
  | [] => []
  | x :: xs => insertAsc key x (sortAsc key xs)

/-- Insert `x` into a list descending in `key`. -/
def insertDesc (key : α → Nat) (x : α) : List α → List α
  | [] => [x]
  | y :: ys => if key y ≤ key x then x :: y :: ys else y :: insertDesc key x ys

/-- Sort descending in `key` (embeds `ORDER BY key DESC`). -/
def sortDesc (key : α → Nat) : List α → List α
  | [] => []
  | x :: xs => insertDesc key x (sortDesc key xs)

-- ── Remote config store ───────────────────────────────────────────

/-- `load_sync_config`: `SELECT … FROM sync_config WHERE is_active = 1
ORDER BY id DESC LIMIT 1`. -/
def load_sync_config (rows : List SyncConfigRow) : Option SyncConfigRow :=
  (sortDesc (fun c => c.id) (rows.filter (fun c => c.is_active))).head?

/-- `save_sync_config`: read the active row's interval (default 30),
`UPDATE sync_config SET is_active = 0`, then `INSERT` the new row with
`is_active = 1, sync_enabled = 1`. -/
def save_sync_config (url anon_key service_key : String) (freshId : Nat)
    (rows : List SyncConfigRow) : List SyncConfigRow :=
  let current_interval :=
    (((rows.filter (fun c => c.is_active)).head?).map (fun c => c.sync_interval)).getD 30
  let deactivated := rows.map (fun c => { c with is_active := false })
  deactivated ++
    [{ id := freshId, supabase_url := url, supabase_anon_key := anon_key,
       supabase_service_key := service_key, is_active := true,
       sync_enabled := true, sync_interval := current_interval }]

-- ── Session Runner ────────────────────────────────────────────────

/-- `reqwest::StatusCode::is_success`: 2xx. -/
def is_success (code : Nat) : Bool := 200 ≤ code && code ≤ 299

/-- Eligibility filter of the Session Runner:
`status = 'pending' OR (status = 'failed' AND retry_count < 5)`. -/
def eligible (i : SyncQueueItem) : Bool :=
  i.status == "pending" || (i.status == "failed" && decide (i.retry_count < 5))

/-- The item selection of `process_sync_queue`:
`SELECT * FROM sync_queue WHERE status = 'pending' OR (status = 'failed'
AND retry_count < 5) ORDER BY created_at ASC`. -/
def select_eligible (q : List SyncQueueItem) : List SyncQueueItem :=
  sortAsc (fun i => i.created_at) (q.filter eligible)

/-- The outcome classification of `process_sync_queue` (the `match result`):
returns the updated item together with the increments to
`total_synced` and `total_failed`. -/
def classify_outcome (now : Nat) (res : HttpResult) (item : SyncQueueItem) :
    SyncQueueItem × Nat × Nat :=
  match res with
  | .ok code body =>
    if is_success code || code == 201 || code == 204 then
      ({ item with status := "synced", synced_at := some now }, 1, 0)
    else
      ({ item with
          status := "failed", retry_count := item.retry_count + 1,
          error_message := some body }, 0, 1)
  | .err msg =>
      ({ item with
          status := "failed", retry_count := item.retry_count + 1,
          error_message := some msg }, 0, 1)

/-- One iteration of the Session Runner loop body: mark the item
`syncing`, dispatch by operation (INSERT/UPDATE/DELETE perform an HTTP
call; any other operation `continue`s, leaving the item `syncing` and
the counters untouched), then classify the outcome. -/
def process_item (http : SyncQueueItem → HttpResult) (now : Nat)
    (item : SyncQueueItem) : SyncQueueItem × Nat × Nat :=
  let marked := { item with status := "syncing" }
  if item.operation == "INSERT" || item.operation == "UPDATE"
      || item.operation == "DELETE" then
    classify_outcome now (http item) marked
  else
    (marked, 0, 0)

/-- `UPDATE sync_queue SET … WHERE id = it.id` over the queue list. -/
def update_queue_item (q : List SyncQueueItem) (it : SyncQueueItem) :
    List SyncQueueItem :=
  q.map (fun j => if j.id = it.id then it else j)

/-- The Session Runner loop over the selected items, threading the
queue state and the `total_synced` / `total_failed` counters. -/
def run_items (http : SyncQueueItem → HttpResult) (now : Nat) :
    List SyncQueueItem → List SyncQueueItem → Nat → Nat →
    List SyncQueueItem × Nat × Nat
  | [], q, ts, tf => (q, ts, tf)
  | it :: rest, q, ts, tf =>
    let r := process_item http now it
    run_items http now rest (update_queue_item q r.1) (ts + r.2.1) (tf + r.2.2)

-- ── Retention Sweeper ─────────────────────────────────────────────

/-- `cleanup_old_sync_data`: delete sync_sessions whose id is not among
the 100 most recent by `started_at`, and synced queue items whose id is
not among the 100 most recent by `synced_at`. -/
def cleanup_old_sync_data (db : Db) : Db :=
  let keepS :=
    ((sortDesc (fun s => s.started_at) db.sync_sessions).take 100).map (fun s => s.id)
  let keepQ :=
    ((sortDesc (fun i => i.synced_at.getD 0)
        (db.sync_queue.filter (fun i => i.status == "synced"))).take 100).map
      (fun i => i.id)
  { db with
    sync_sessions := db.sync_sessions.filter (fun s => keepS.contains s.id),
    sync_queue :=
      db.sync_queue.filter (fun i => !(i.status == "synced") || keepQ.contains i.id) }

/-- `process_sync_queue`: load the active config (skip the pass if none
or disabled), open a session row, select eligible items oldest-first,
run the push loop, finalize the session
(`failed` iff failures and zero successes), then sweep retention.
`now` is the pass's clock value, `sid` the fresh session id. -/
def process_sync_queue (http : SyncQueueItem → HttpResult) (now sid : Nat)
    (db : Db) : Db :=
  match load_sync_config db.sync_config with
  | none => db
  | some c =>
    if c.sync_enabled then
      let items := select_eligible db.sync_queue
      let session : SyncSession :=
        { id := sid, started_at := now, finished_at := none,
          total_queued := items.length, total_synced := 0, total_failed := 0,
          status := "running" }
      let r := run_items http now items db.sync_queue 0 0
      let st := if 0 < r.2.2 ∧ r.2.1 = 0 then "failed" else "completed"
      let sessions :=
        (db.sync_sessions ++ [session]).map (fun s =>
          if s.id = sid then
            { s with
                finished_at := some now, total_synced := r.2.1,
                total_failed := r.2.2, status := st }
          else s)
      cleanup_old_sync_data
        { db with sync_queue := r.1, sync_sessions := sessions }
    else db

-- ── Full resync and credential rotation ───────────────────────────

/-- The synced business tables, in the iteration order used by
`migrate_to_new_database` (steps 4 and 5) and by the unsynced-marking
loop of `trigger_full_sync`. -/
def synced_tables : List String :=
  ["customers", "orders", "order_items", "expenses", "shop_settings"]

/-- The table iteration order of `trigger_full_sync`'s `tables` vector. -/
def full_sync_table_order : List String :=
  ["shop_settings", "customers", "orders", "order_items", "expenses"]

/-- The full-row `json_object(…)` payload built by `trigger_full_sync`:
the id together with every business column of the row. -/
def fullSnapshot (r : TableRow) : String :=
  "\x7b\"id\":" ++ toString r.id ++
    (r.fields.map (fun f => ",\"" ++ f.1 ++ "\":\"" ++ f.2 ++ "\"")).foldl
      (fun a b => a ++ b) "" ++ "\x7d"

/-- The `json_object('id', id)` payload built by `migrate_to_new_database`
(despite its comment "Fetch full record as JSON-like payload"). -/
def idOnlySnapshot (r : TableRow) : String :=
  "\x7b\"id\":" ++ toString r.id ++ "\x7d"

/-- Rows of a business table, by name (missing table reads as empty). -/
def getTable (db : Db) (name : String) : List TableRow :=
  ((db.tables.find? (fun t => t.1 == name)).map (fun t => t.2)).getD []

/-- `INSERT INTO sync_queue (table_name, operation, record_id, payload,
status) VALUES (…, 'pending')` with the schema defaults
(`retry_count = 0`, `created_at = now`, `synced_at` NULL). -/
def new_queue_item (qid now : Nat) (table op : String) (rid : Nat)
    (payload : String) : SyncQueueItem :=
  { id := qid, table_name := table, operation := op, record_id := rid,
    payload := payload, status := "pending", retry_count := 0,
    error_message := none, created_at := now, synced_at := none }

/-- Enqueue one INSERT entry per (table, row) pair, assigning
auto-increment ids from `qid` upward. -/
def build_entries (snap : TableRow → String) (now : Nat) :
    Nat → List (String × TableRow) → List SyncQueueItem
  | _, [] => []
  | qid, p :: rest =>
    new_queue_item qid now p.1 "INSERT" p.2.id (snap p.2) ::
      build_entries snap now (qid + 1) rest

/-- All (table, row) pairs of the given tables, in table order. -/
def rows_of_tables (db : Db) (order : List String) :
    List (String × TableRow) :=
  order.flatMap (fun n => (getTable db n).map (fun r => (n, r)))

/-- `UPDATE {table} SET synced = 0` for every synced business table. -/
def mark_all_unsynced (db : Db) : Db :=
  { db with
    tables := db.tables.map (fun t =>
      if synced_tables.contains t.1 then
        (t.1, t.2.map (fun r => { r with synced := false }))
      else t) }

deriving instance DecidableEq for Except

/-- Result of an operator command: the database state it leaves behind,
the synchronous result, and whether it spawned a Session Runner pass. -/
structure CmdResult where
  db : Db
  result : Except String String
  sync_triggered : Bool
deriving Repr, DecidableEq

/-- `trigger_full_sync`: require an active config; `DELETE FROM
sync_queue WHERE status IN ('pending', 'failed')`; for every row of
every synced table enqueue an INSERT entry with the full `json_object`
payload (ids from `qid0`); `UPDATE … SET synced = 0` everywhere; then
spawn a Session Runner pass. -/
def trigger_full_sync (now qid0 : Nat) (db : Db) : CmdResult :=
  match load_sync_config db.sync_config with
  | none =>
    { db := db,
      result := .error
        "No sync configuration found. Please save your Supabase config first.",
      sync_triggered := false }
  | some _ =>
    let cleared := db.sync_queue.filter (fun i =>
      !(i.status == "pending" || i.status == "failed"))
    let pairs := rows_of_tables db full_sync_table_order
    let db1 := mark_all_unsynced
      { db with sync_queue := cleared ++ build_entries fullSnapshot now qid0 pairs }
    { db := db1,
      result := .ok (toString pairs.length ++ " records queued for initial sync."),
      sync_triggered := true }

/-- `migrate_to_new_database`: verify the master password hash with the
Argon2 oracle `verify` (reject before any mutation); deactivate all
configs and insert the new active one (the interval is read after the
deactivation, so it always defaults to 30); reset every `sync_queue`
row to `pending`; mark every business row unsynced; re-enqueue every
row of every synced table as an INSERT whose payload is
`json_object('id', id)`; then spawn a Session Runner pass. -/
def migrate_to_new_database (verify : String → String → Bool)
    (master_password new_url new_anon new_service : String)
    (cfgId now qid0 : Nat) (db : Db) : CmdResult :=
  match db.master_password_hash with
  | none =>
    { db := db, result := .error "No master password set. Please set one first.",
      sync_triggered := false }
  | some h =>
    if verify master_password h then
      let deactivated := db.sync_config.map (fun c => { c with is_active := false })
      let current_interval :=
        (((deactivated.filter (fun c => c.is_active)).head?).map
          (fun c => c.sync_interval)).getD 30
      let cfgs := deactivated ++
        [{ id := cfgId, supabase_url := new_url, supabase_anon_key := new_anon,
           supabase_service_key := new_service, is_active := true,
           sync_enabled := true, sync_interval := current_interval }]
      let queue := db.sync_queue.map (fun i =>
        { i with status := "pending", retry_count := 0, error_message := none })
      let db1 := mark_all_unsynced
        { db with sync_config := cfgs, sync_queue := queue }
      let pairs := rows_of_tables db1 synced_tables
      let db2 := { db1 with
        sync_queue := db1.sync_queue ++ build_entries idOnlySnapshot now qid0 pairs }
      { db := db2,
        result := .ok ("Migration started. " ++ toString pairs.length ++
          " records queued for sync."),
        sync_triggered := true }
    else
      { db := db, result := .error "Invalid master password",
        sync_triggered := false }

/-- `retry_failed_items`:
`UPDATE sync_queue SET status = 'pending', retry_count = 0,
error_message = NULL WHERE status = 'failed'`. -/
def retry_failed_items (q : List SyncQueueItem) : List SyncQueueItem :=
  q.map (fun i =>
    if i.status == "failed" then
      { i with status := "pending", retry_count := 0, error_message := none }
    else i)

-- ── Shared lemmas about the sorting and retention embeddings ──────

theorem perm_insertAsc (key : α → Nat) (x : α) (l : List α) :
    List.Perm (insertAsc key x l) (x :: l) := by
  induction l with
  | nil => simp [insertAsc]
  | cons y ys ih =>
    simp only [insertAsc]
    split
    · exact List.Perm.refl _
    · exact (ih.cons y).trans (List.Perm.swap x y ys)

theorem perm_sortAsc (key : α → Nat) (l : List α) :
    List.Perm (sortAsc key l) l := by
  induction l with
  | nil => simp [sortAsc]
  | cons x xs ih => exact (perm_insertAsc key x _).trans (ih.cons x)

theorem perm_insertDesc (key : α → Nat) (x : α) (l : List α) :
    List.Perm (insertDesc key x l) (x :: l) := by
  induction l with
  | nil => simp [insertDesc]
  | cons y ys ih =>
    simp only [insertDesc]
    split
    · exact List.Perm.refl _
    · exact (ih.cons y).trans (List.Perm.swap x y ys)

theorem perm_sortDesc (key : α → Nat) (l : List α) :
    List.Perm (sortDesc key l) l := by
  induction l with
  | nil => simp [sortDesc]
  | cons x xs ih => exact (perm_insertDesc key x _).trans (ih.cons x)

theorem sorted_insertAsc (key : α → Nat) (x : α) (l : List α)
    (h : l.Pairwise (fun a b => key a ≤ key b)) :
    (insertAsc key x l).Pairwise (fun a b => key a ≤ key b) := by
  induction l with
  | nil => simp [insertAsc]
  | cons y ys ih =>
    rw [List.pairwise_cons] at h
    simp only [insertAsc]
    split
    · rename_i hxy
      refine List.Pairwise.cons ?_ (List.Pairwise.cons h.1 h.2)
      intro b hb
      rcases List.mem_cons.1 hb with hb | hb
      · exact hb ▸ hxy
      · exact le_trans hxy (h.1 b hb)
    · rename_i hxy
      refine List.Pairwise.cons ?_ (ih h.2)
      intro b hb
      rcases List.mem_cons.1 ((perm_insertAsc key x ys).mem_iff.1 hb) with hb | hb
      · subst hb; exact le_of_not_le hxy
      · exact h.1 b hb

theorem sorted_sortAsc (key : α → Nat) (l : List α) :
    (sortAsc key l).Pairwise (fun a b => key a ≤ key b) := by
  induction l with
  | nil => simp [sortAsc]
  | cons x xs ih => exact sorted_insertAsc key x _ ih

theorem sorted_insertDesc (key : α → Nat) (x : α) (l : List α)
    (h : l.Pairwise (fun a b => key b ≤ key a)) :
    (insertDesc key x l).Pairwise (fun a b => key b ≤ key a) := by
  induction l with
  | nil => simp [insertDesc]
  | cons y ys ih =>
    rw [List.pairwise_cons] at h
    simp only [insertDesc]
    split
    · rename_i hyx
      refine List.Pairwise.cons ?_ (List.Pairwise.cons h.1 h.2)
      intro b hb
      rcases List.mem_cons.1 hb with hb | hb
      · exact hb ▸ hyx
      · exact le_trans (h.1 b hb) hyx
    · rename_i hyx
      refine List.Pairwise.cons ?_ (ih h.2)
      intro b hb
      rcases List.mem_cons.1 ((perm_insertDesc key x ys).mem_iff.1 hb) with hb | hb
      · subst hb; exact le_of_not_le hyx
      · exact h.1 b hb

theorem sorted_sortDesc (key : α → Nat) (l : List α) :
    (sortDesc key l).Pairwise (fun a b => key b ≤ key a) := by
  induction l with
  | nil => simp [sortDesc]
  | cons x xs ih => exact sorted_insertDesc key x _ ih

/-- The `DELETE … WHERE id NOT IN ids` pattern keeps exactly the rows
whose id occurs among the kept rows, provided ids are unique and the
kept rows come from the table. -/
theorem mem_keep_iff {α : Type} (idf : α → Nat) (l top : List α)
    (hnd : (l.map idf).Nodup) (hsub : top ⊆ l) (x : α) :
    x ∈ l.filter (fun a => (top.map idf).contains (idf a)) ↔ x ∈ top := by
  constructor
  · intro hx
    rw [List.mem_filter] at hx
    have hmem : idf x ∈ top.map idf := by simpa using hx.2
    rcases List.mem_map.1 hmem with ⟨t, ht, hidf⟩
    have : t = x := List.inj_on_of_nodup_map hnd (hsub ht) hx.1 hidf
    exact this ▸ ht
  · intro hx
    rw [List.mem_filter]
    refine ⟨hsub hx, ?_⟩
    simpa using List.mem_map_of_mem idf hx

/-- The `DELETE … WHERE id NOT IN ids` pattern keeps at most as many
rows as there are kept ids, provided ids are unique. -/
theorem length_keep_le {α : Type} (idf : α → Nat) (l top : List α)
    (hnd : (l.map idf).Nodup) :
    (l.filter (fun a => (top.map idf).contains (idf a))).length ≤ top.length := by
  set f := l.filter (fun a => (top.map idf).contains (idf a)) with hf
  have hsubl : f.Sublist l := List.filter_sublist l
  have hndf : (f.map idf).Nodup := (hsubl.map idf).nodup hnd
  have hsubset : f.map idf ⊆ top.map idf := by
    intro b hb
    rcases List.mem_map.1 hb with ⟨a, ha, hab⟩
    have := (List.mem_filter.1 (hf ▸ ha)).2
    simpa [hab] using this
  calc f.length = (f.map idf).length := (List.length_map f idf).symm
    _ ≤ (top.map idf).length :=
        (List.subperm_of_subset hndf hsubset).length_le
    _ = top.length := List.length_map top idf

-- ── Concrete sample data used by witnesses and evaluations ────────

/-- A pending INSERT outbox entry, as in the spec's scenario for
`customers` id 42. -/
def sampleItem : SyncQueueItem :=
  { id := 1, table_name := "customers", operation := "INSERT", record_id := 42,
    payload := "\x7b\"id\":42,\"name\":\"Acme\"\x7d", status := "pending",
    retry_count := 0, error_message := none, created_at := 1, synced_at := none }

/-- A failed entry that has exhausted the retry cap. -/
def stuckItem : SyncQueueItem :=
  { id := 3, table_name := "orders", operation := "UPDATE", record_id := 7,
    payload := "\x7b\"id\":7\x7d", status := "failed", retry_count := 5,
    error_message := some "db error", created_at := 2, synced_at := none }

/-- An active sync config with syncing enabled. -/
def activeCfg : SyncConfigRow :=
  { id := 1, supabase_url := "https://x.supabase.co", supabase_anon_key := "anon",
    supabase_service_key := "service", is_active := true, sync_enabled := true,
    sync_interval := 30 }

/-- An active sync config whose `sync_enabled` flag is off. -/
def disabledCfg : SyncConfigRow :=
  { id := 1, supabase_url := "https://old.supabase.co", supabase_anon_key := "oa",
    supabase_service_key := "os", is_active := true, sync_enabled := false,
    sync_interval := 60 }

/-- The Argon2 oracle of the samples: accepts exactly password "pw"
against stored hash "HASH". -/
def verifySample : String → String → Bool := fun p h => p == "pw" && h == "HASH"

-- ── Claim theorems ────────────────────────────────────────────────

/-- Claim C3: for every entry processed in a session, a 2xx response
(201 and 204 included) sets the entry `synced` with `synced_at` set and
increments `total_synced` by one; a non-2xx response or a transport
error sets it `failed`, increments `retry_count`, stores the response
body or the transport error text in `error_message`, and increments
`total_failed` by one. -/
theorem C3_outcome_classification (now : Nat) (item : SyncQueueItem)
    (code : Nat) (body msg : String) :
    (200 ≤ code ∧ code ≤ 299 →
      classify_outcome now (.ok code body) item =
        ({ item with status := "synced", synced_at := some now }, 1, 0))
    ∧ (¬(200 ≤ code ∧ code ≤ 299) →
      classify_outcome now (.ok code body) item =
        ({ item with
            status := "failed", retry_count := item.retry_count + 1,
            error_message := some body }, 0, 1))
    ∧ classify_outcome now (.err msg) item =
        ({ item with
            status := "failed", retry_count := item.retry_count + 1,
            error_message := some msg }, 0, 1) := by
  refine ⟨?_, ?_, rfl⟩
  · intro h
    have hg : (is_success code || code == 201 || code == 204) = true := by
      simp [is_success]
      omega
    simp [classify_outcome, hg]
  · intro h
    have hg : (is_success code || code == 201 || code == 204) = false := by
      simp [is_success]
      omega
    simp [classify_outcome, hg]

/-- Witness for C3 at status code 201. -/
theorem C3_outcome_classification_witness :
    classify_outcome 7 (.ok 201 "Created") sampleItem =
      ({ sampleItem with status := "synced", synced_at := some 7 }, 1, 0) :=
  (C3_outcome_classification 7 sampleItem 201 "Created" "x").1 (by decide)

/-- Claim C4: a session selects exactly the entries with status
`pending`, or `failed` with `retry_count < 5`, ordered by `created_at`
ascending; an entry that has failed 5 times is not selected until
`retry_failed_items` resets it back to an eligible `pending` state. -/
theorem C4_selection (q : List SyncQueueItem) :
    List.Perm (select_eligible q) (q.filter eligible)
    ∧ (select_eligible q).Pairwise (fun a b => a.created_at ≤ b.created_at)
    ∧ (∀ i ∈ q, i.status = "failed" → 5 ≤ i.retry_count →
        i ∉ select_eligible q)
    ∧ (∀ i ∈ q, i.status = "failed" →
        { i with status := "pending", retry_count := 0, error_message := none } ∈
          retry_failed_items q
        ∧ eligible { i with
            status := "pending", retry_count := 0, error_message := none } = true) := by
  refine ⟨perm_sortAsc _ _, sorted_sortAsc _ _, ?_, ?_⟩
  · intro i hi hst hrc hmem
    have hel : eligible i = true :=
      (List.mem_filter.1 ((perm_sortAsc (fun i => i.created_at) _).mem_iff.1 hmem)).2
    simp [eligible, hst] at hel
    omega
  · intro i hi hst
    constructor
    · have hmem := List.mem_map_of_mem (fun j : SyncQueueItem =>
        if j.status == "failed" then
          { j with status := "pending", retry_count := 0, error_message := none }
        else j) hi
      simpa [retry_failed_items, hst] using hmem
    · simp [eligible]

/-- Witness for C4: a 5-times-failed entry is not selected. -/
theorem C4_selection_witness : stuckItem ∉ select_eligible [stuckItem] :=
  (C4_selection [stuckItem]).2.2.1 stuckItem (by simp) rfl (by decide)

/-- Claim C6: `migrate_to_new_database` called with a secret that fails
verification returns a synchronous error and leaves the database state
untouched: no config row changed, no outbox entry re-enqueued or
modified, no sync pass spawned. -/
theorem C6_migrate_wrong_secret (verify : String → String → Bool)
    (mp u a s : String) (cid now qid : Nat) (db : Db) (h : String)
    (hhash : db.master_password_hash = some h)
    (hverify : verify mp h = false) :
    migrate_to_new_database verify mp u a s cid now qid db =
      { db := db, result := .error "Invalid master password",
        sync_triggered := false } := by
  simp [migrate_to_new_database, hhash, hverify]

/-- Witness for C6 at a wrong password against the sample hash. -/
theorem C6_migrate_wrong_secret_witness :
    migrate_to_new_database verifySample "wrong" "u" "a" "s" 2 10 50
        { sync_queue := [sampleItem], sync_sessions := [],
          sync_config := [activeCfg], tables := [],
          master_password_hash := some "HASH" } =
      { db := { sync_queue := [sampleItem], sync_sessions := [],
                sync_config := [activeCfg], tables := [],
                master_password_hash := some "HASH" },
        result := .error "Invalid master password", sync_triggered := false } :=
  C6_migrate_wrong_secret verifySample "wrong" "u" "a" "s" 2 10 50 _ "HASH"
    rfl (by decide)

/-- Claim C9: `save_sync_config` and a successful
`migrate_to_new_database` each deactivate every existing config before
inserting the new active one, so after either operation (in particular
after `save_sync_config` twice) exactly one config row is active. -/
theorem C9_single_active_config :
    (∀ (url a s : String) (fid : Nat) (rows : List SyncConfigRow),
      (save_sync_config url a s fid rows).countP (fun c => c.is_active) = 1)
    ∧ (∀ (verify : String → String → Bool) (mp u a s : String)
        (cid now qid : Nat) (db : Db) (msg : String),
      (migrate_to_new_database verify mp u a s cid now qid db).result = .ok msg →
      (migrate_to_new_database verify mp u a s cid now qid db).db.sync_config.countP
        (fun c => c.is_active) = 1)
    ∧ (∀ (u1 a1 s1 : String) (f1 : Nat) (u2 a2 s2 : String) (f2 : Nat)
        (rows : List SyncConfigRow),
      (save_sync_config u2 a2 s2 f2 (save_sync_config u1 a1 s1 f1 rows)).countP
        (fun c => c.is_active) = 1) := by
  have hsave : ∀ (url a s : String) (fid : Nat) (rows : List SyncConfigRow),
      (save_sync_config url a s fid rows).countP (fun c => c.is_active) = 1 := by
    intro url a s fid rows
    simp [save_sync_config, List.countP_append, List.countP_map,
      Function.comp, List.countP_cons]
  refine ⟨hsave, ?_, fun u1 a1 s1 f1 u2 a2 s2 f2 rows => hsave u2 a2 s2 f2 _⟩
  intro verify mp u a s cid now qid db msg hok
  cases hhash : db.master_password_hash with
  | none => simp [migrate_to_new_database, hhash] at hok
  | some h =>
    by_cases hv : verify mp h
    · simp [migrate_to_new_database, hhash, hv, mark_all_unsynced,
        List.countP_append, List.countP_map, Function.comp, List.countP_cons]
    · simp [migrate_to_new_database, hhash, hv] at hok

/-- Witness for C9's migrate part: a successful sample migration leaves
exactly one active config. -/
theorem C9_single_active_config_witness :
    (migrate_to_new_database verifySample "pw" "u" "a" "s" 2 10 50
        { sync_queue := [], sync_sessions := [], sync_config := [disabledCfg],
          tables := [], master_password_hash := some "HASH" }).db.sync_config.countP
      (fun c => c.is_active) = 1 :=
  C9_single_active_config.2.1 verifySample "pw" "u" "a" "s" 2 10 50
    { sync_queue := [], sync_sessions := [], sync_config := [disabledCfg],
      tables := [], master_password_hash := some "HASH" }
    "Migration started. 0 records queued for sync." (by decide)

/-- Claim C10 (implicit): every successful `save_sync_config` inserts
its new active config with `sync_enabled = true`, even when the
previously active config had `sync_enabled = false`. -/
theorem C10_save_config_reenables_sync (url a s : String) (fid : Nat)
    (rows : List SyncConfigRow) :
    (∃ cfg, (save_sync_config url a s fid rows).getLast? = some cfg
      ∧ cfg.is_active = true ∧ cfg.sync_enabled = true)
    ∧ (∀ c ∈ save_sync_config url a s fid rows,
        c.is_active = true → c.sync_enabled = true) := by
  constructor
  · refine ⟨{
      id := fid
      supabase_url := url
      supabase_anon_key := a
      supabase_service_key := s
      is_active := true
      sync_enabled := true
      sync_interval :=
        (((rows.filter (fun c => c.is_active)).head?).map
          (fun c => c.sync_interval)).getD 30 }, ?_, rfl, rfl⟩
    simp [save_sync_config]
  · intro c hc hact
    rcases List.mem_append.1 hc with hc | hc
    · rcases List.mem_map.1 hc with ⟨d, _, hd⟩
      rw [← hd] at hact
      simp at hact
    · rcases List.mem_singleton.1 hc with rfl
      rfl

/-- Witness for C10: saving over a disabled config yields an active,
sync-enabled config. -/
theorem C10_save_config_reenables_sync_witness :
    ({ id := 9, supabase_url := "u", supabase_anon_key := "a",
       supabase_service_key := "s", is_active := true, sync_enabled := true,
       sync_interval := 60 } : SyncConfigRow).sync_enabled = true :=
  (C10_save_config_reenables_sync "u" "a" "s" 9 [disabledCfg]).2
    { id := 9, supabase_url := "u", supabase_anon_key := "a",
      supabase_service_key := "s", is_active := true, sync_enabled := true,
      sync_interval := 60 } (by decide) rfl

/-- An HTTP oracle whose every call succeeds with status 200. -/
def http200 : SyncQueueItem → HttpResult := fun _ => .ok 200 "ok"

/-- A small database with one pending entry and an enabled config. -/
def db5 : Db :=
  { sync_queue := [sampleItem], sync_sessions := [], sync_config := [activeCfg],
    tables := [], master_password_hash := none }

/-- Claim C5: after a pass, the session row is finalized with
`finished_at` set, and its status is `failed` iff the pass produced
failures and zero successes; in every other case (partial success
included) it is `completed`. -/
theorem C5_session_finalization (http : SyncQueueItem → HttpResult)
    (now sid : Nat) (db : Db)
    (hfresh : ∀ t ∈ db.sync_sessions, t.id ≠ sid) :
    ∀ s ∈ (process_sync_queue http now sid db).sync_sessions, s.id = sid →
      s.finished_at = some now
      ∧ (s.status = "failed" ↔ 0 < s.total_failed ∧ s.total_synced = 0)
      ∧ (s.status = "failed" ∨ s.status = "completed") := by
  intro s hs hsid
  unfold process_sync_queue at hs
  split at hs
  · exact absurd hsid (hfresh s hs)
  · split at hs
    · simp only [cleanup_old_sync_data, List.mem_filter] at hs
      obtain ⟨hs, -⟩ := hs
      rcases List.mem_map.1 hs with ⟨t, ht, hgt⟩
      rcases List.mem_append.1 ht with ht | ht
      · rw [if_neg (hfresh t ht)] at hgt
        exact absurd (hgt ▸ hsid) (hfresh t ht)
      · rcases List.mem_singleton.1 ht with rfl
        rw [if_pos rfl] at hgt
        subst hgt
        by_cases hc : 0 < (run_items http now
            (select_eligible db.sync_queue) db.sync_queue 0 0).2.2
          ∧ (run_items http now
            (select_eligible db.sync_queue) db.sync_queue 0 0).2.1 = 0
        · exact ⟨rfl, by simp [hc], Or.inl (by simp [hc])⟩
        · exact ⟨rfl, by simp [hc], Or.inr (by simp [hc])⟩
    · exact absurd hsid (hfresh s hs)

/-- The finalized session `db5` produces under `http200`. -/
def finalSession5 : SyncSession :=
  { id := 1, started_at := 10, finished_at := some 10, total_queued := 1,
    total_synced := 1, total_failed := 0, status := "completed" }

/-- Witness for C5 on the one-entry database. -/
theorem C5_session_finalization_witness :
    finalSession5.finished_at = some 10
    ∧ (finalSession5.status = "failed" ↔
        0 < finalSession5.total_failed ∧ finalSession5.total_synced = 0)
    ∧ (finalSession5.status = "failed" ∨ finalSession5.status = "completed") :=
  C5_session_finalization http200 10 1 db5 (by decide) finalSession5
    (by decide) rfl

theorem build_entries_forall (snap : TableRow → String) (now : Nat) :
    ∀ (pairs : List (String × TableRow)) (qid : Nat),
      ∀ e ∈ build_entries snap now qid pairs,
        e.status = "pending" ∧ e.operation = "INSERT" ∧ qid ≤ e.id := by
  intro pairs
  induction pairs with
  | nil => intro qid e he; simp [build_entries] at he
  | cons p rest ih =>
    intro qid e he
    simp only [build_entries] at he
    rcases List.mem_cons.1 he with rfl | he
    · exact ⟨rfl, rfl, le_refl _⟩
    · obtain ⟨h1, h2, h3⟩ := ih (qid + 1) e he
      exact ⟨h1, h2, le_trans (Nat.le_succ qid) h3⟩

theorem mem_build_entries (snap : TableRow → String) (now : Nat) :
    ∀ (pairs : List (String × TableRow)) (qid : Nat), ∀ p ∈ pairs,
      ∃ e ∈ build_entries snap now qid pairs,
        e.table_name = p.1 ∧ e.operation = "INSERT" ∧ e.record_id = p.2.id
        ∧ e.payload = snap p.2 ∧ e.status = "pending" := by
  intro pairs
  induction pairs with
  | nil => intro qid p hp; simp at hp
  | cons q rest ih =>
    intro qid p hp
    rcases List.mem_cons.1 hp with rfl | hp
    · exact ⟨new_queue_item qid now p.1 "INSERT" p.2.id (snap p.2),
        by simp [build_entries], rfl, rfl, rfl, rfl, rfl⟩
    · obtain ⟨e, he, hprops⟩ := ih (qid + 1) p hp
      refine ⟨e, ?_, hprops⟩
      simp only [build_entries, List.mem_cons]
      exact Or.inr he

/-- A synced entry used to check the full resync leaves it alone. -/
def syncedEntry7 : SyncQueueItem :=
  { id := 1, table_name := "customers", operation := "INSERT", record_id := 1,
    payload := "old", status := "synced", retry_count := 0,
    error_message := none, created_at := 1, synced_at := some 2 }

/-- A business-table row used by the resync samples. -/
def custRow : TableRow :=
  { id := 1, fields := [("name", "Acme")], synced := true }

/-- A small database with one synced entry, one pending entry, an
active config and one customers row. -/
def db7 : Db :=
  { sync_queue := [syncedEntry7, sampleItem], sync_sessions := [],
    sync_config := [activeCfg], tables := [("customers", [custRow])],
    master_password_hash := none }

/-- Claim C7: with an active config, `trigger_full_sync` deletes every
pending/failed entry, enqueues one fresh pending INSERT with the full
row snapshot for every row of every synced table, marks every row
unsynced, and spawns a Session Runner pass; synced and syncing entries
survive untouched. -/
theorem C7_full_resync (now qid0 : Nat) (db : Db) (c : SyncConfigRow)
    (hcfg : load_sync_config db.sync_config = some c)
    (hids : ∀ i ∈ db.sync_queue, i.id < qid0) :
    (trigger_full_sync now qid0 db).sync_triggered = true
    ∧ (∃ msg, (trigger_full_sync now qid0 db).result = .ok msg)
    ∧ (∀ i ∈ db.sync_queue, i.status = "synced" ∨ i.status = "syncing" →
        i ∈ (trigger_full_sync now qid0 db).db.sync_queue)
    ∧ (∀ i ∈ db.sync_queue, i.status = "pending" ∨ i.status = "failed" →
        i ∉ (trigger_full_sync now qid0 db).db.sync_queue)
    ∧ (∀ n ∈ full_sync_table_order, ∀ r ∈ getTable db n,
        ∃ e ∈ (trigger_full_sync now qid0 db).db.sync_queue,
          e.table_name = n ∧ e.operation = "INSERT" ∧ e.record_id = r.id
          ∧ e.payload = fullSnapshot r ∧ e.status = "pending")
    ∧ (∀ t ∈ (trigger_full_sync now qid0 db).db.tables,
        synced_tables.contains t.1 = true → ∀ r ∈ t.2, r.synced = false) := by
  have hT : trigger_full_sync now qid0 db =
      { db := (mark_all_unsynced
          { db with sync_queue := (db.sync_queue.filter
              (fun i => !(i.status == "pending" || i.status == "failed"))
              ++ build_entries fullSnapshot now qid0
                (rows_of_tables db full_sync_table_order)) }),
        result := (.ok (toString (rows_of_tables db full_sync_table_order).length
          ++ " records queued for initial sync.")),
        sync_triggered := true } := by
    simp [trigger_full_sync, hcfg]
  rw [hT]
  refine ⟨rfl, ⟨_, rfl⟩, ?_, ?_, ?_, ?_⟩
  · intro i hi hst
    simp only [mark_all_unsynced, List.mem_append]
    left
    rw [List.mem_filter]
    refine ⟨hi, ?_⟩
    rcases hst with hst | hst <;> simp [hst]
  · intro i hi hst hmem
    simp only [mark_all_unsynced, List.mem_append] at hmem
    rcases hmem with hmem | hmem
    · have := (List.mem_filter.1 hmem).2
      rcases hst with hst | hst <;> simp [hst] at this
    · have hub := (build_entries_forall fullSnapshot now _ qid0 i hmem).2.2
      have := hids i hi
      omega
  · intro n hn r hr
    have hp : (n, r) ∈ rows_of_tables db full_sync_table_order := by
      rw [rows_of_tables, List.mem_flatMap]
      exact ⟨n, hn, List.mem_map_of_mem _ hr⟩
    obtain ⟨e, he, hprops⟩ :=
      mem_build_entries fullSnapshot now _ qid0 (n, r) hp
    refine ⟨e, ?_, hprops⟩
    simp only [mark_all_unsynced, List.mem_append]
    exact Or.inr he
  · intro t ht hcont r hr
    simp only [mark_all_unsynced, List.mem_map] at ht
    obtain ⟨t0, ht0, heq⟩ := ht
    by_cases hc0 : synced_tables.contains t0.1 = true
    · rw [if_pos hc0] at heq
      subst heq
      rcases List.mem_map.1 hr with ⟨r0, _, hr0⟩
      rw [← hr0]
    · rw [if_neg hc0] at heq
      subst heq
      exact absurd hcont hc0

/-- Witness for C7: the synced entry of `db7` survives the resync. -/
theorem C7_full_resync_witness :
    syncedEntry7 ∈ (trigger_full_sync 5 10 db7).db.sync_queue :=
  (C7_full_resync 5 10 db7 activeCfg (by decide) (by decide)).2.2.1
    syncedEntry7 (by decide) (Or.inl rfl)

/-- Claim C8: the automatic sweep leaves at most 100 session rows
(exactly those among the 100 most recent by start time) and at most 100
synced outbox entries (exactly those among the 100 most recent by
`synced_at`); entries in any other status are never deleted by it. -/
theorem C8_retention (db : Db)
    (hs : (db.sync_sessions.map (fun s => s.id)).Nodup)
    (hq : (db.sync_queue.map (fun i => i.id)).Nodup) :
    (cleanup_old_sync_data db).sync_sessions.length ≤ 100
    ∧ ((cleanup_old_sync_data db).sync_queue.filter
        (fun i => i.status == "synced")).length ≤ 100
    ∧ (∀ s, s ∈ (cleanup_old_sync_data db).sync_sessions ↔
        s ∈ (sortDesc (fun s => s.started_at) db.sync_sessions).take 100)
    ∧ (∀ i ∈ db.sync_queue, ¬ i.status = "synced" →
        i ∈ (cleanup_old_sync_data db).sync_queue)
    ∧ (∀ i, i ∈ (cleanup_old_sync_data db).sync_queue ∧ i.status = "synced" ↔
        i ∈ (sortDesc (fun i => i.synced_at.getD 0)
              (db.sync_queue.filter (fun i => i.status == "synced"))).take 100) := by
  have hsubS : (sortDesc (fun s => s.started_at) db.sync_sessions).take 100 ⊆
      db.sync_sessions :=
    fun x hx => (perm_sortDesc _ _).subset (List.take_subset _ _ hx)
  have hLQ : ((db.sync_queue.filter (fun i => i.status == "synced")).map
      (fun i => i.id)).Nodup :=
    ((List.filter_sublist _).map _).nodup hq
  have hsubQ : (sortDesc (fun i => i.synced_at.getD 0)
        (db.sync_queue.filter (fun i => i.status == "synced"))).take 100 ⊆
      db.sync_queue.filter (fun i => i.status == "synced") :=
    fun x hx => (perm_sortDesc _ _).subset (List.take_subset _ _ hx)
  have hcomm : ((cleanup_old_sync_data db).sync_queue.filter
        (fun i => i.status == "synced")) =
      (db.sync_queue.filter (fun i => i.status == "synced")).filter
        (fun a => (((sortDesc (fun i => i.synced_at.getD 0)
            (db.sync_queue.filter (fun i => i.status == "synced"))).take 100).map
          (fun i => i.id)).contains a.id) := by
    simp only [cleanup_old_sync_data]
    rw [List.filter_filter, List.filter_filter]
    apply List.filter_congr
    intro a _
    cases hsy : a.status == "synced" <;> simp [hsy]
  refine ⟨?_, ?_, ?_, ?_, ?_⟩
  · simp only [cleanup_old_sync_data]
    exact le_trans
      (length_keep_le (fun s => s.id) db.sync_sessions _ hs)
      (le_trans (Nat.le_of_eq (List.length_take _ _)) (Nat.min_le_left _ _))
  · rw [hcomm]
    exact le_trans
      (length_keep_le (fun i : SyncQueueItem => i.id) _ _ hLQ)
      (le_trans (Nat.le_of_eq (List.length_take _ _)) (Nat.min_le_left _ _))
  · intro s
    simp only [cleanup_old_sync_data]
    exact mem_keep_iff (fun s => s.id) db.sync_sessions _ hs hsubS s
  · intro i hi hst
    simp only [cleanup_old_sync_data]
    rw [List.mem_filter]
    exact ⟨hi, by simp [hst]⟩
  · intro i
    have hiff := mem_keep_iff (fun i : SyncQueueItem => i.id)
      (db.sync_queue.filter (fun i => i.status == "synced")) _ hLQ hsubQ i
    rw [← hiff, ← hcomm, List.mem_filter]
    simp

/-- A database with two distinct-id queue entries for the C8 witness. -/
def db8 : Db :=
  { sync_queue := [sampleItem, stuckItem], sync_sessions := [],
    sync_config := [activeCfg], tables := [], master_password_hash := none }

/-- Witness for C8: a pending entry survives the sweep. -/
theorem C8_retention_witness :
    sampleItem ∈ (cleanup_old_sync_data db8).sync_queue :=
  (C8_retention db8 (by decide) (by decide)).2.2.2.1 sampleItem (by decide)
    (by decide)

/-- An entry orphaned in `syncing` state by an unclean shutdown. -/
def orphanItem : SyncQueueItem :=
  { id := 1, table_name := "customers", operation := "INSERT", record_id := 42,
    payload := "\x7b\"id\":42\x7d", status := "syncing", retry_count := 0,
    error_message := none, created_at := 1, synced_at := none }

/-- A database that starts up with one orphaned `syncing` entry and an
enabled config. -/
def dbOrphan : Db :=
  { sync_queue := [orphanItem], sync_sessions := [], sync_config := [activeCfg],
    tables := [], master_password_hash := none }

/-- Claim C1 evaluated on the code: no startup recovery exists, so an
entry left in `syncing` at process start is not selected by the first
Session Runner pass and stays `syncing` forever instead of being reset
to `pending`. -/
theorem C1_syncing_entry_stranded :
    select_eligible dbOrphan.sync_queue = []
    ∧ (process_sync_queue http200 10 1 dbOrphan).sync_queue = [orphanItem]
    ∧ orphanItem.status = "syncing" := by
  decide

/-- A previously synced outbox entry present when a migration runs. -/
def migSyncedEntry : SyncQueueItem :=
  { id := 1, table_name := "customers", operation := "INSERT", record_id := 1,
    payload := "old", status := "synced", retry_count := 0,
    error_message := none, created_at := 1, synced_at := some 2 }

/-- A database with one synced entry, one customers row and a stored
master password hash, for evaluating `migrate_to_new_database`. -/
def dbMig : Db :=
  { sync_queue := [migSyncedEntry], sync_sessions := [],
    sync_config := [activeCfg],
    tables := [("customers", [custRow]), ("orders", []), ("order_items", []),
      ("expenses", []), ("shop_settings", [])],
    master_password_hash := some "HASH" }

/-- Claim C2 evaluated on the code: a successful
`migrate_to_new_database` enqueues INSERT entries whose payload is the
id-only `json_object` (not the complete row snapshot the claim and the
payload invariant require — no enqueued payload equals the full
snapshot), and instead of clearing pending/failed entries it resets the
previously synced entry back to `pending`. -/
theorem C2_migrate_divergence :
    (∃ e ∈ (migrate_to_new_database verifySample "pw" "u2" "a2" "s2"
          2 10 50 dbMig).db.sync_queue,
        e.table_name = "customers" ∧ e.operation = "INSERT" ∧ e.record_id = 1
        ∧ 50 ≤ e.id ∧ e.payload = idOnlySnapshot custRow)
    ∧ idOnlySnapshot custRow ≠ fullSnapshot custRow
    ∧ (∀ e ∈ (migrate_to_new_database verifySample "pw" "u2" "a2" "s2"
          2 10 50 dbMig).db.sync_queue,
        e.payload ≠ fullSnapshot custRow)
    ∧ (∃ e ∈ (migrate_to_new_database verifySample "pw" "u2" "a2" "s2"
          2 10 50 dbMig).db.sync_queue,
        e.id = 1 ∧ e.status = "pending")
    ∧ migSyncedEntry.status = "synced" := by
  decide

end SineShin
